import Mathlib

/-!
Verification of the Gourmle guessing game (src/app.py).

The geodesic helpers (`haversine`, `calculate_bearing`, `bearing_to_cardinal`),
the guess-submission handler and the image-fetch section of `app.py` are shallowly
embedded below.  Python floats are modelled as real numbers, `math.atan2` as an
explicit case split on quadrants, and the Python float modulo operator as
`rmod a b = a - b * ⌊a / b⌋` (the sign-of-divisor convention Python uses).
-/

open Real

/-- Python math.atan2(y, x): the angle of the point (x, y), matching the C
    convention (case split on the sign of x, with arctan of the ratio). -/
noncomputable def atan2 (y x : ℝ) : ℝ :=
  if 0 < x then arctan (y / x)
  else if x < 0 then
    (if 0 ≤ y then arctan (y / x) + π else arctan (y / x) - π)
  else
    (if 0 < y then π / 2 else if y < 0 then -(π / 2) else 0)

/-- Python float modulo with positive divisor: a % b = a - b * floor(a / b). -/
noncomputable def rmod (a b : ℝ) : ℝ := a - b * ⌊a / b⌋

/-- math.radians: degrees to radians. -/
noncomputable def radians (d : ℝ) : ℝ := d * π / 180

/-- math.degrees: radians to degrees. -/
noncomputable def degrees (r : ℝ) : ℝ := r * 180 / π

/-- The intermediate value `a` computed inside `haversine` (app.py line 19). -/
noncomputable def hav_a (lat1 lon1 lat2 lon2 : ℝ) : ℝ :=
  sin (radians (lat2 - lat1) / 2) ^ 2 +
    cos (radians lat1) * cos (radians lat2) * sin (radians (lon2 - lon1) / 2) ^ 2

/-- app.py lines 10-20: haversine distance in km, Earth radius R = 6371. -/
noncomputable def haversine (lat1 lon1 lat2 lon2 : ℝ) : ℝ :=
  2 * 6371 * atan2 (Real.sqrt (hav_a lat1 lon1 lat2 lon2))
    (Real.sqrt (1 - hav_a lat1 lon1 lat2 lon2))

/-- app.py lines 30-34: the local variable `bearing` of calculate_bearing,
    i.e. degrees(atan2(x, y)) before the final shift and wrap. -/
noncomputable def rawBearing (lat1 lon1 lat2 lon2 : ℝ) : ℝ :=
  degrees (atan2
    (sin (radians (lon2 - lon1)) * cos (radians lat2))
    (cos (radians lat1) * sin (radians lat2) -
      sin (radians lat1) * cos (radians lat2) * cos (radians (lon2 - lon1))))

/-- app.py lines 23-35: returns None for identical coordinate pairs, otherwise
    (bearing + 180) % 360. -/
noncomputable def calculate_bearing (lat1 lon1 lat2 lon2 : ℝ) : Option ℝ :=
  if lat1 = lat2 ∧ lon1 = lon2 then none
  else some (rmod (rawBearing lat1 lon1 lat2 lon2 + 180) 360)

/-- The bearing function as section 4.1 of the spec describes it (for comparison
    with `calculate_bearing`): the standard initial great-circle bearing from
    point 1 to point 2, normalised to [0, 360), null for identical points.
    This is the same atan2 formula the code computes, without the +180 shift. -/
noncomputable def bearingDegreesSpec (lat1 lon1 lat2 lon2 : ℝ) : Option ℝ :=
  if lat1 = lat2 ∧ lon1 = lon2 then none
  else some (rmod (rawBearing lat1 lon1 lat2 lon2) 360)

/-- app.py line 44: the eight direction glyphs, N NE E SE S SW W NW. -/
def dirs : List String := ["⬆️", "↗️", "➡️", "↘️", "⬇️", "↙️", "⬅️", "↖️"]

/-- app.py line 45: ix = int((bearing + 22.5) // 45) % 8.  Python floor division
    on floats is the real floor, and % on integers has the sign of the divisor,
    which is Int.emod. -/
noncomputable def glyphIndex (bearing : ℝ) : ℤ := ⌊(bearing + 22.5) / 45⌋ % 8

/-- app.py lines 38-46: None maps to the checkmark, otherwise index into dirs. -/
noncomputable def bearing_to_cardinal (bearing : Option ℝ) : String :=
  match bearing with
  | none => "✅"
  | some b => dirs.getD (glyphIndex b).toNat ""

/- ----------------- helper lemmas: rmod ----------------- -/

lemma rmod_nonneg (a b : ℝ) (hb : 0 < b) : 0 ≤ rmod a b := by
  have h := Int.fract_nonneg (a / b)
  have : rmod a b = b * Int.fract (a / b) := by
    unfold rmod Int.fract; field_simp
  rw [this]
  positivity

lemma rmod_lt (a b : ℝ) (hb : 0 < b) : rmod a b < b := by
  have h := Int.fract_lt_one (a / b)
  have heq : rmod a b = b * Int.fract (a / b) := by
    unfold rmod Int.fract; field_simp
  rw [heq]
  calc b * Int.fract (a / b) < b * 1 := by
        exact (mul_lt_mul_left hb).mpr h
    _ = b := mul_one b

lemma rmod_eq_self (a b : ℝ) (h0 : 0 ≤ a) (h1 : a < b) : rmod a b = a := by
  have hb : 0 < b := lt_of_le_of_lt h0 h1
  have : ⌊a / b⌋ = 0 := by
    rw [Int.floor_eq_zero_iff]
    constructor
    · positivity
    · rw [div_lt_one hb]; exact h1
  unfold rmod
  rw [this]
  simp

/- ----------------- C7: symmetry and zero of haversine ----------------- -/

lemma hav_a_symm (lat1 lon1 lat2 lon2 : ℝ) :
    hav_a lat1 lon1 lat2 lon2 = hav_a lat2 lon2 lat1 lon1 := by
  unfold hav_a
  have h1 : radians (lat1 - lat2) / 2 = -(radians (lat2 - lat1) / 2) := by
    unfold radians; ring
  have h2 : radians (lon1 - lon2) / 2 = -(radians (lon2 - lon1) / 2) := by
    unfold radians; ring
  rw [h1, h2, Real.sin_neg, Real.sin_neg, neg_pow, neg_pow]
  ring

lemma hav_a_self (lat lon : ℝ) : hav_a lat lon lat lon = 0 := by
  unfold hav_a
  have h0 : radians (lat - lat) / 2 = 0 := by unfold radians; ring
  have h1 : radians (lon - lon) / 2 = 0 := by unfold radians; ring
  rw [h0, h1, Real.sin_zero]
  ring

lemma haversine_self (lat lon : ℝ) : haversine lat lon lat lon = 0 := by
  unfold haversine
  rw [hav_a_self]
  have h1 : Real.sqrt 0 = 0 := Real.sqrt_zero
  have h2 : Real.sqrt (1 - 0) = 1 := by norm_num [Real.sqrt_one]
  rw [h1, h2]
  unfold atan2
  norm_num

/-- C7: distanceKm is symmetric and zero on coinciding points; it is the
    haversine great-circle formula scaled by twice the Earth radius 6371 km. -/
theorem haversine_symm_and_zero (lat1 lon1 lat2 lon2 : ℝ) :
    haversine lat1 lon1 lat2 lon2 = haversine lat2 lon2 lat1 lon1 ∧
    haversine lat1 lon1 lat1 lon1 = 0 ∧
    haversine lat1 lon1 lat2 lon2 =
      2 * 6371 * atan2 (Real.sqrt (hav_a lat1 lon1 lat2 lon2))
        (Real.sqrt (1 - hav_a lat1 lon1 lat2 lon2)) := by
  refine ⟨?_, haversine_self lat1 lon1, rfl⟩
  unfold haversine
  rw [hav_a_symm lat1 lon1 lat2 lon2]

/- ----------------- C10: the haversine intermediate lies in [0,1] ----------------- -/

lemma radians_mem_pi_half {lat : ℝ} (h1 : -90 ≤ lat) (h2 : lat ≤ 90) :
    -(π / 2) ≤ radians lat ∧ radians lat ≤ π / 2 := by
  unfold radians
  have hπ : (0:ℝ) < π := Real.pi_pos
  constructor <;> nlinarith

lemma cos_radians_nonneg {lat : ℝ} (h1 : -90 ≤ lat) (h2 : lat ≤ 90) :
    0 ≤ cos (radians lat) := by
  obtain ⟨ha, hb⟩ := radians_mem_pi_half h1 h2
  exact Real.cos_nonneg_of_mem_Icc ⟨ha, hb⟩

lemma hav_a_nonneg {lat1 lon1 lat2 lon2 : ℝ}
    (h1 : -90 ≤ lat1) (h2 : lat1 ≤ 90) (h3 : -90 ≤ lat2) (h4 : lat2 ≤ 90) :
    0 ≤ hav_a lat1 lon1 lat2 lon2 := by
  unfold hav_a
  have hc1 := cos_radians_nonneg h1 h2
  have hc2 := cos_radians_nonneg h3 h4
  have hs1 := sq_nonneg (sin (radians (lat2 - lat1) / 2))
  have hs2 := sq_nonneg (sin (radians (lon2 - lon1) / 2))
  have hprod := mul_nonneg (mul_nonneg hc1 hc2) hs2
  linarith

lemma hav_a_le_one {lat1 lon1 lat2 lon2 : ℝ}
    (h1 : -90 ≤ lat1) (h2 : lat1 ≤ 90) (h3 : -90 ≤ lat2) (h4 : lat2 ≤ 90) :
    hav_a lat1 lon1 lat2 lon2 ≤ 1 := by
  unfold hav_a
  have hc1 := cos_radians_nonneg h1 h2
  have hc2 := cos_radians_nonneg h3 h4
  set p := radians lat1 with hp
  set q := radians lat2 with hq
  have hdiff : radians (lat2 - lat1) = q - p := by
    rw [hp, hq]; unfold radians; ring
  rw [hdiff]
  have hhalf : sin ((q - p) / 2) ^ 2 = (1 - cos (q - p)) / 2 := by
    have := Real.cos_two_mul ((q - p) / 2)
    have harg : 2 * ((q - p) / 2) = q - p := by ring
    rw [harg] at this
    have hpyth := Real.sin_sq_add_cos_sq ((q - p) / 2)
    nlinarith
  rw [hhalf]
  have hsub : cos (q - p) = cos q * cos p + sin q * sin p := Real.cos_sub q p
  have hadd : cos (p + q) = cos p * cos q - sin p * sin q := Real.cos_add p q
  have hcos1 : cos (p + q) ≤ 1 := Real.cos_le_one (p + q)
  have hsinsq : sin (radians (lon2 - lon1) / 2) ^ 2 ≤ 1 := Real.sin_sq_le_one _
  have hsinsq0 : 0 ≤ sin (radians (lon2 - lon1) / 2) ^ 2 := sq_nonneg _
  have hprod : cos p * cos q * sin (radians (lon2 - lon1) / 2) ^ 2 ≤ cos p * cos q :=
    mul_le_of_le_one_right (mul_nonneg hc1 hc2) hsinsq
  nlinarith

/-- C10: for latitudes in [-90, 90] the haversine intermediate a is in [0, 1],
    so both square-root arguments a and 1 - a are non-negative. -/
theorem hav_a_mem_unit {lat1 lon1 lat2 lon2 : ℝ}
    (h1 : -90 ≤ lat1) (h2 : lat1 ≤ 90) (h3 : -90 ≤ lat2) (h4 : lat2 ≤ 90) :
    0 ≤ hav_a lat1 lon1 lat2 lon2 ∧ hav_a lat1 lon1 lat2 lon2 ≤ 1 ∧
    0 ≤ 1 - hav_a lat1 lon1 lat2 lon2 :=
  ⟨hav_a_nonneg h1 h2 h3 h4, hav_a_le_one h1 h2 h3 h4,
    by linarith [@hav_a_le_one lat1 lon1 lat2 lon2 h1 h2 h3 h4]⟩

/-- Witness for C10 at the concrete latitudes 36.2048 and 46.2276. -/
theorem hav_a_mem_unit_witness :
    (-90 ≤ (36.2048:ℝ)) ∧ ((36.2048:ℝ) ≤ 90) ∧
    (-90 ≤ (46.2276:ℝ)) ∧ ((46.2276:ℝ) ≤ 90) ∧
    (0 ≤ hav_a 36.2048 138.2529 46.2276 2.2137 ∧
      hav_a 36.2048 138.2529 46.2276 2.2137 ≤ 1 ∧
      0 ≤ 1 - hav_a 36.2048 138.2529 46.2276 2.2137) :=
  ⟨by norm_num, by norm_num, by norm_num, by norm_num,
    hav_a_mem_unit (by norm_num) (by norm_num) (by norm_num) (by norm_num)⟩

/- ----------------- C6 / C9: the glyph table ----------------- -/

lemma glyphIndex_nonneg (b : ℝ) : 0 ≤ glyphIndex b :=
  Int.emod_nonneg _ (by norm_num)

lemma glyphIndex_lt (b : ℝ) : glyphIndex b < 8 :=
  Int.emod_lt_of_pos _ (by norm_num)

lemma bearing_some_mem_dirs (b : ℝ) : bearing_to_cardinal (some b) ∈ dirs := by
  have h2 : glyphIndex b < 8 := glyphIndex_lt b
  have h3 : (glyphIndex b).toNat < dirs.length := by
    simp only [dirs, List.length]
    omega
  show dirs.getD (glyphIndex b).toNat "" ∈ dirs
  rw [List.getD_eq_getElem?_getD, List.getElem?_eq_getElem h3]
  exact List.getElem_mem h3

/-- C6: bearing_to_cardinal maps null to the checkmark and any bearing to the
    glyph at floor((bearing + 22.5)/45) mod 8 in the list of exactly 8 distinct
    directional glyphs. -/
theorem bearing_to_cardinal_spec (b : ℝ) (h0 : 0 ≤ b) (h1 : b < 360) :
    bearing_to_cardinal none = "✅" ∧
    dirs.length = 8 ∧ dirs.Nodup ∧
    bearing_to_cardinal (some b) = dirs.getD (⌊(b + 22.5) / 45⌋ % 8).toNat "" ∧
    bearing_to_cardinal (some b) ∈ dirs :=
  ⟨rfl, rfl, by decide, rfl, bearing_some_mem_dirs b⟩

/-- Witness for C6 at bearing 90 (due east). -/
theorem bearing_to_cardinal_spec_witness :
    (0 ≤ (90:ℝ)) ∧ ((90:ℝ) < 360) ∧
    (bearing_to_cardinal none = "✅" ∧
      dirs.length = 8 ∧ dirs.Nodup ∧
      bearing_to_cardinal (some 90) = dirs.getD (⌊((90:ℝ) + 22.5) / 45⌋ % 8).toNat "" ∧
      bearing_to_cardinal (some 90) ∈ dirs) :=
  ⟨by norm_num, by norm_num, bearing_to_cardinal_spec 90 (by norm_num) (by norm_num)⟩

/-- C9: for every real bearing argument, even negative or at least 360, the
    lookup index is in [0, 8), so indexing the 8-element glyph list is in
    bounds and yields one of the 8 glyphs. -/
theorem glyphIndex_in_bounds (b : ℝ) :
    0 ≤ glyphIndex b ∧ glyphIndex b < 8 ∧ bearing_to_cardinal (some b) ∈ dirs :=
  ⟨glyphIndex_nonneg b, glyphIndex_lt b, bearing_some_mem_dirs b⟩

/- ----------------- the game state machine ----------------- -/

/-- One row of the CSV dataset (app.py lines 51-55, 65-68): columns Country,
    Dish, latitud, longitud. -/
structure DishEntry where
  Country : String
  Dish : String
  latitud : ℝ
  longitud : ℝ

/-- One recorded attempt (app.py lines 127-133). -/
structure Attempt where
  guess : String
  distance : ℝ
  direction : String
  correct : Bool
  color : String

/-- The per-session game state (st.session_state keys answer_row, attempts,
    finished; app.py lines 60-63). -/
structure RoundState where
  answer_row : DishEntry
  attempts : List Attempt
  finished : Bool

/-- A fresh round: a sampled target row, no attempts, not finished. -/
def freshRound (row : DishEntry) : RoundState := ⟨row, [], false⟩

/-- df.loc[df[Country] == guess].iloc[0]: the first row whose Country equals
    the guess, if any (iloc[0] raises IndexError when there is none). -/
def lookupCountry (df : List DishEntry) (c : String) : Option DishEntry :=
  df.find? (fun e => e.Country == c)

/-- app.py line 126: the attempt color. -/
noncomputable def colorRule (correct : Bool) (dist : ℝ) : String :=
  if correct then "green" else if dist < 5000 then "orange" else "red"

/-- Result of one click of the Adivinar button.  `accepted` carries the new
    session state; `rejected` carries the (unchanged) session state, covering
    both the case where the button is not rendered (round finished, app.py
    line 115) and the case where the country lookup raises IndexError before
    any mutation (app.py lines 118-120). -/
inductive SubmitOutcome where
  | accepted (s : RoundState)
  | rejected (s : RoundState)

/-- The session state after the outcome. -/
def SubmitOutcome.state : SubmitOutcome → RoundState
  | .accepted s => s
  | .rejected s => s

/-- app.py lines 115-136: the guess submission handler. -/
noncomputable def submitGuess (df : List DishEntry) (s : RoundState) (guess : String) :
    SubmitOutcome :=
  if s.finished then .rejected s
  else
    match lookupCountry df guess with
    | none => .rejected s
    | some row =>
      let dist := haversine s.answer_row.latitud s.answer_row.longitud row.latitud row.longitud
      let bearing := calculate_bearing s.answer_row.latitud s.answer_row.longitud
        row.latitud row.longitud
      let direction := bearing_to_cardinal bearing
      let correct := guess == s.answer_row.Country
      let color := colorRule correct dist
      let attempts := s.attempts ++ [⟨guess, dist, direction, correct, color⟩]
      .accepted ⟨s.answer_row, attempts, correct || decide (5 ≤ attempts.length)⟩

/-- States reachable from a fresh round by any sequence of button clicks. -/
inductive Reachable (df : List DishEntry) : RoundState → Prop where
  | fresh (row : DishEntry) : Reachable df (freshRound row)
  | step (s : RoundState) (g : String) :
      Reachable df s → Reachable df (submitGuess df s g).state

lemma submitGuess_of_finished (df : List DishEntry) (s : RoundState) (g : String)
    (h : s.finished = true) : submitGuess df s g = .rejected s := by
  unfold submitGuess
  rw [h]
  simp

lemma submitGuess_of_no_country (df : List DishEntry) (s : RoundState) (g : String)
    (h : lookupCountry df g = none) : submitGuess df s g = .rejected s := by
  unfold submitGuess
  by_cases hf : s.finished = true
  · rw [hf]; simp
  · rw [Bool.not_eq_true] at hf
    rw [hf, h]
    simp

/-- The Attempt record appended by the handler (app.py lines 127-133) when the
    guess g resolves to dataset row `row`. -/
noncomputable def attemptFor (s : RoundState) (g : String) (row : DishEntry) : Attempt where
  guess := g
  distance := haversine s.answer_row.latitud s.answer_row.longitud row.latitud row.longitud
  direction := bearing_to_cardinal (calculate_bearing s.answer_row.latitud
    s.answer_row.longitud row.latitud row.longitud)
  correct := g == s.answer_row.Country
  color := colorRule (g == s.answer_row.Country)
    (haversine s.answer_row.latitud s.answer_row.longitud row.latitud row.longitud)

lemma submitGuess_accepted (df : List DishEntry) (s : RoundState) (g : String)
    (row : DishEntry) (hf : s.finished = false) (hl : lookupCountry df g = some row) :
    submitGuess df s g = .accepted
      (RoundState.mk s.answer_row (s.attempts ++ [attemptFor s g row])
        ((g == s.answer_row.Country) ||
          decide (5 ≤ (s.attempts ++ [attemptFor s g row]).length))) := by
  unfold submitGuess attemptFor
  rw [hf, hl]
  simp

/-- The round invariant: at most five attempts, and finished exactly when the
    last attempt is correct or there are five attempts. -/
def RoundInvariant (s : RoundState) : Prop :=
  s.attempts.length ≤ 5 ∧
    (s.finished = true ↔
      (∃ a, s.attempts.getLast? = some a ∧ a.correct = true) ∨ s.attempts.length = 5)

lemma reachable_invariant (df : List DishEntry) (s : RoundState)
    (h : Reachable df s) : RoundInvariant s := by
  induction h with
  | fresh row =>
    constructor
    · simp [freshRound]
    · simp [freshRound]
  | step s g hreach ih =>
    by_cases hf : s.finished = true
    · rw [submitGuess_of_finished df s g hf]
      exact ih
    · rw [Bool.not_eq_true] at hf
      cases hl : lookupCountry df g with
      | none =>
        rw [submitGuess_of_no_country df s g hl]
        exact ih
      | some row =>
        rw [submitGuess_accepted df s g row hf hl]
        obtain ⟨hlen, hiff⟩ := ih
        have hnot : ¬((∃ a, s.attempts.getLast? = some a ∧ a.correct = true) ∨
            s.attempts.length = 5) := by
          intro hcon
          have := hiff.mpr hcon
          rw [hf] at this
          exact Bool.false_ne_true this
        push_neg at hnot
        have hne5 : s.attempts.length ≠ 5 := hnot.2
        have hle4 : s.attempts.length ≤ 4 := by omega
        constructor
        · simp only [SubmitOutcome.state, List.length_append, List.length_cons,
            List.length_nil]
          omega
        · simp only [SubmitOutcome.state]
          rw [List.getLast?_concat]
          constructor
          · intro hfin
            rw [Bool.or_eq_true] at hfin
            rcases hfin with hc | hd
            · exact Or.inl ⟨_, rfl, hc⟩
            · rw [decide_eq_true_iff] at hd
              right
              simp only [List.length_append, List.length_cons, List.length_nil] at hd ⊢
              omega
          · intro hcon
            rw [Bool.or_eq_true]
            rcases hcon with ⟨a, ha, hac⟩ | hlen5
            · left
              cases ha
              exact hac
            · right
              rw [decide_eq_true_iff]
              omega

/-- C4: every reachable state has at most 5 attempts; it is finished exactly
    when the last attempt is correct or there are 5 attempts; and in a
    finished state every further submission is rejected with the state
    unchanged. -/
theorem reachable_round_invariant (df : List DishEntry) (s : RoundState)
    (h : Reachable df s) :
    s.attempts.length ≤ 5 ∧
    (s.finished = true ↔
      (∃ a, s.attempts.getLast? = some a ∧ a.correct = true) ∨ s.attempts.length = 5) ∧
    (s.attempts.length = 5 → s.finished = true) ∧
    (s.finished = true → ∀ g, submitGuess df s g = .rejected s) := by
  obtain ⟨h1, h2⟩ := reachable_invariant df s h
  exact ⟨h1, h2, fun h5 => h2.mpr (Or.inr h5),
    fun hfin g => submitGuess_of_finished df s g hfin⟩

/- ----------------- C5: color assignment and immediate finish ----------------- -/

/-- C5: an accepted submission appends exactly the attempt record whose color
    is green when the guessed country equals the target country, orange when
    it is wrong and the distance is under 5000 km, red otherwise; a correct
    submission immediately finishes the round. -/
theorem submit_color_and_finish (df : List DishEntry) (s : RoundState) (g : String)
    (row : DishEntry) (hf : s.finished = false) (hl : lookupCountry df g = some row) :
    ∃ s2, submitGuess df s g = .accepted s2 ∧
      s2.attempts = s.attempts ++ [attemptFor s g row] ∧
      (attemptFor s g row).correct = (g == s.answer_row.Country) ∧
      (attemptFor s g row).distance =
        haversine s.answer_row.latitud s.answer_row.longitud row.latitud row.longitud ∧
      ((attemptFor s g row).correct = true → (attemptFor s g row).color = "green") ∧
      ((attemptFor s g row).correct = false → (attemptFor s g row).distance < 5000 →
        (attemptFor s g row).color = "orange") ∧
      ((attemptFor s g row).correct = false → ¬(attemptFor s g row).distance < 5000 →
        (attemptFor s g row).color = "red") ∧
      ((attemptFor s g row).correct = true → s2.finished = true) := by
  refine ⟨_, submitGuess_accepted df s g row hf hl, rfl, rfl, rfl, ?_, ?_, ?_, ?_⟩
  · intro hc
    show colorRule (g == s.answer_row.Country) _ = "green"
    unfold attemptFor at hc
    simp only at hc
    rw [hc]
    unfold colorRule
    simp
  · intro hc hd
    show colorRule (g == s.answer_row.Country) _ = "orange"
    unfold attemptFor at hc hd
    simp only at hc hd
    rw [hc]
    unfold colorRule
    simp only [Bool.false_eq_true, if_false]
    rw [if_pos hd]
  · intro hc hd
    show colorRule (g == s.answer_row.Country) _ = "red"
    unfold attemptFor at hc hd
    simp only at hc hd
    rw [hc]
    unfold colorRule
    simp only [Bool.false_eq_true, if_false]
    rw [if_neg hd]
  · intro hc
    unfold attemptFor at hc
    simp only at hc
    show ((g == s.answer_row.Country) || _) = true
    rw [hc]
    simp

/- ----------------- concrete dataset rows for the witnesses and C2 ----------------- -/

/-- The example target row of spec section 8. -/
def japanRow : DishEntry := ⟨"Japan", "Sushi", 36.2048, 138.2529⟩

/-- The example guess row of spec section 8 (the dish field is irrelevant). -/
def franceRow : DishEntry := ⟨"France", "Crepes", 46.2276, 2.2137⟩

/-- A two-row dataset holding the example rows. -/
def gameDf : List DishEntry := [franceRow, japanRow]

lemma lookup_france : lookupCountry gameDf "France" = some franceRow := by
  simp [lookupCountry, gameDf, franceRow, List.find?]

lemma lookup_atlantis : lookupCountry gameDf "Atlantis" = none := by
  simp [lookupCountry, gameDf, franceRow, japanRow, List.find?]

/-- Witness for C5: submitting France on a fresh Japan round. -/
theorem submit_color_and_finish_witness :
    (freshRound japanRow).finished = false ∧
    lookupCountry gameDf "France" = some franceRow ∧
    (∃ s2, submitGuess gameDf (freshRound japanRow) "France" = .accepted s2 ∧
      s2.attempts = (freshRound japanRow).attempts ++
        [attemptFor (freshRound japanRow) "France" franceRow] ∧
      (attemptFor (freshRound japanRow) "France" franceRow).correct =
        ("France" == (freshRound japanRow).answer_row.Country) ∧
      (attemptFor (freshRound japanRow) "France" franceRow).distance =
        haversine (freshRound japanRow).answer_row.latitud
          (freshRound japanRow).answer_row.longitud franceRow.latitud franceRow.longitud ∧
      ((attemptFor (freshRound japanRow) "France" franceRow).correct = true →
        (attemptFor (freshRound japanRow) "France" franceRow).color = "green") ∧
      ((attemptFor (freshRound japanRow) "France" franceRow).correct = false →
        (attemptFor (freshRound japanRow) "France" franceRow).distance < 5000 →
        (attemptFor (freshRound japanRow) "France" franceRow).color = "orange") ∧
      ((attemptFor (freshRound japanRow) "France" franceRow).correct = false →
        ¬(attemptFor (freshRound japanRow) "France" franceRow).distance < 5000 →
        (attemptFor (freshRound japanRow) "France" franceRow).color = "red") ∧
      ((attemptFor (freshRound japanRow) "France" franceRow).correct = true →
        s2.finished = true)) :=
  ⟨rfl, lookup_france,
    submit_color_and_finish gameDf (freshRound japanRow) "France" franceRow rfl lookup_france⟩

/-- Witness for C4 at a fresh round. -/
theorem reachable_round_invariant_witness :
    Reachable gameDf (freshRound japanRow) ∧
    ((freshRound japanRow).attempts.length ≤ 5 ∧
      ((freshRound japanRow).finished = true ↔
        (∃ a, (freshRound japanRow).attempts.getLast? = some a ∧ a.correct = true) ∨
          (freshRound japanRow).attempts.length = 5) ∧
      ((freshRound japanRow).attempts.length = 5 → (freshRound japanRow).finished = true) ∧
      ((freshRound japanRow).finished = true →
        ∀ g, submitGuess gameDf (freshRound japanRow) g = .rejected (freshRound japanRow))) :=
  ⟨Reachable.fresh japanRow,
    reachable_round_invariant gameDf (freshRound japanRow) (Reachable.fresh japanRow)⟩

/- ----------------- C8: unknown country is rejected without mutation ----------------- -/

/-- C8: a guess naming no dataset country is rejected (the row lookup fails
    before any state mutation) and the round state is completely unchanged. -/
theorem unknown_country_rejected (df : List DishEntry) (s : RoundState) (g : String)
    (h : lookupCountry df g = none) :
    submitGuess df s g = .rejected s ∧
    (submitGuess df s g).state.answer_row = s.answer_row ∧
    (submitGuess df s g).state.attempts = s.attempts ∧
    (submitGuess df s g).state.finished = s.finished := by
  have he := submitGuess_of_no_country df s g h
  rw [he]
  exact ⟨rfl, rfl, rfl, rfl⟩

/-- Witness for C8: guessing Atlantis on a fresh Japan round. -/
theorem unknown_country_rejected_witness :
    lookupCountry gameDf "Atlantis" = none ∧
    (submitGuess gameDf (freshRound japanRow) "Atlantis" = .rejected (freshRound japanRow) ∧
      (submitGuess gameDf (freshRound japanRow) "Atlantis").state.answer_row =
        (freshRound japanRow).answer_row ∧
      (submitGuess gameDf (freshRound japanRow) "Atlantis").state.attempts =
        (freshRound japanRow).attempts ∧
      (submitGuess gameDf (freshRound japanRow) "Atlantis").state.finished =
        (freshRound japanRow).finished) :=
  ⟨lookup_atlantis,
    unknown_country_rejected gameDf (freshRound japanRow) "Atlantis" lookup_atlantis⟩

/- ----------------- C3: the image fetch section ----------------- -/

/-- Outcome of the external Wikipedia request in get_first_image_from_wikipedia.
    networkError: requests.get itself raises (app.py line 86).
    nonJSON: response.json() raises on a malformed body (app.py line 87).
    json p i: a JSON body was decoded; p is the value at parse.text.* when that
    path exists, and i is the src of the first .infobox img when present. -/
inductive FetchOutcome where
  | networkError
  | nonJSON
  | json (parseTextStar : Option String) (infoboxImgSrc : Option String)

/-- app.py lines 78-102.  The requests.get call and response.json() sit OUTSIDE
    the try/except, so their exceptions escape the function (modelled as
    Except.error); only the markup extraction (lines 89-100) is protected and
    falls back to the empty string. -/
def get_first_image_from_wikipedia : FetchOutcome → Except String String
  | .networkError => .error "requests.exceptions.RequestException"
  | .nonJSON => .error "json.decoder.JSONDecodeError"
  | .json none _ => .ok ""
  | .json (some _) none => .ok ""
  | .json (some _) (some src) => .ok ("https:" ++ src)

/-- What the dish section of the page shows. -/
inductive DishDisplay where
  | image (url : String) (caption : String)
  | textLabel (dish : String)
  | scriptError (e : String)

/-- app.py lines 104-112: show the image with a cleaned caption when a URL came
    back, the plain text dish label when the URL is empty, and abort the script
    run when the fetch raised. -/
def renderDishSection (dish : String) (fetch : FetchOutcome) : DishDisplay :=
  match get_first_image_from_wikipedia fetch with
  | .error e => .scriptError e
  | .ok img_url =>
    if img_url = "" then .textLabel dish
    else .image img_url (((dish.replace "food" "").replace "(" "").replace ")" "")

/-- C3 (code bug evidence): a network error or a non-JSON response escapes
    get_first_image_from_wikipedia and aborts the dish rendering instead of
    degrading to the text label; only failures inside the protected markup
    extraction (missing parse text, no infobox image) fall back to the label. -/
theorem image_fetch_failure_propagates :
    get_first_image_from_wikipedia .networkError =
      .error "requests.exceptions.RequestException" ∧
    get_first_image_from_wikipedia .nonJSON = .error "json.decoder.JSONDecodeError" ∧
    (∀ dish, renderDishSection dish .networkError =
      .scriptError "requests.exceptions.RequestException") ∧
    (∀ dish, renderDishSection dish .networkError ≠ .textLabel dish) ∧
    (∀ dish, renderDishSection dish .nonJSON ≠ .textLabel dish) ∧
    (∀ dish html, renderDishSection dish (.json (some html) none) = .textLabel dish) ∧
    (∀ dish, renderDishSection dish (.json none none) = .textLabel dish) := by
  refine ⟨rfl, rfl, fun dish => rfl, fun dish h => ?_, fun dish h => ?_,
    fun dish html => rfl, fun dish => rfl⟩
  · exact DishDisplay.noConfusion h
  · exact DishDisplay.noConfusion h

/- ----------------- C1: what calculate_bearing returns ----------------- -/

lemma rawBearing_east : rawBearing 0 0 0 90 = 90 := by
  unfold rawBearing
  have e1 : radians ((90:ℝ) - 0) = π / 2 := by unfold radians; ring
  have e2 : radians (0:ℝ) = 0 := by unfold radians; ring
  rw [e1, e2, Real.sin_pi_div_two, Real.cos_pi_div_two, Real.cos_zero, Real.sin_zero]
  have hx : (1:ℝ) * 1 = 1 := by norm_num
  have hy : (1:ℝ) * 0 - 0 * 1 * 0 = 0 := by norm_num
  rw [hx, hy]
  have hatan : atan2 1 0 = π / 2 := by
    unfold atan2
    norm_num
  rw [hatan]
  unfold degrees
  have hπ : π ≠ 0 := Real.pi_ne_zero
  field_simp
  ring

lemma calc_bearing_east : calculate_bearing 0 0 0 90 = some 270 := by
  unfold calculate_bearing
  rw [if_neg (by norm_num)]
  rw [rawBearing_east]
  rw [show (90:ℝ) + 180 = 270 by norm_num]
  rw [rmod_eq_self 270 360 (by norm_num) (by norm_num)]

lemma bearing_spec_east : bearingDegreesSpec 0 0 0 90 = some 90 := by
  unfold bearingDegreesSpec
  rw [if_neg (by norm_num)]
  rw [rawBearing_east]
  rw [rmod_eq_self 90 360 (by norm_num) (by norm_num)]

/-- C1 counterexample: for the equator points (0,0) and (0,90) the initial
    great-circle bearing from point 1 to point 2 is due east, 90 degrees, but
    calculate_bearing returns 270: the code does not return the initial bearing
    from point 1 to point 2. -/
theorem calculate_bearing_not_initial_bearing :
    calculate_bearing 0 0 0 90 = some 270 ∧
    bearingDegreesSpec 0 0 0 90 = some 90 ∧
    (270:ℝ) ≠ 90 :=
  ⟨calc_bearing_east, bearing_spec_east, by norm_num⟩

/-- C1 amended: calculate_bearing returns null exactly on identical coordinate
    pairs; on distinct pairs it returns the initial great-circle bearing from
    point 1 to point 2 SHIFTED BY 180 degrees and wrapped into [0,360) (the
    back-azimuth convention), and every returned value is in [0,360). -/
theorem calculate_bearing_back_azimuth (lat1 lon1 lat2 lon2 : ℝ) :
    (calculate_bearing lat1 lon1 lat2 lon2 = none ↔ lat1 = lat2 ∧ lon1 = lon2) ∧
    (¬(lat1 = lat2 ∧ lon1 = lon2) →
      calculate_bearing lat1 lon1 lat2 lon2 =
        some (rmod (rawBearing lat1 lon1 lat2 lon2 + 180) 360)) ∧
    (∀ β, calculate_bearing lat1 lon1 lat2 lon2 = some β → 0 ≤ β ∧ β < 360) := by
  unfold calculate_bearing
  by_cases h : lat1 = lat2 ∧ lon1 = lon2
  · rw [if_pos h]
    refine ⟨by simp [h], fun hc => absurd h hc, fun β hβ => ?_⟩
    exact Option.noConfusion hβ
  · rw [if_neg h]
    refine ⟨by simp [h], fun _ => rfl, fun β hβ => ?_⟩
    injection hβ with hval
    rw [← hval]
    exact ⟨rmod_nonneg _ 360 (by norm_num), rmod_lt _ 360 (by norm_num)⟩

/-- Witness for C1 at the equator points (0,0) and (0,90). -/
theorem calculate_bearing_back_azimuth_witness :
    (¬((0:ℝ) = 0 ∧ (0:ℝ) = 90)) ∧
    calculate_bearing 0 0 0 90 = some (rmod (rawBearing 0 0 0 90 + 180) 360) ∧
    (∀ β, calculate_bearing 0 0 0 90 = some β → 0 ≤ β ∧ β < 360) :=
  ⟨by norm_num,
    (calculate_bearing_back_azimuth 0 0 0 90).2.1 (by norm_num),
    (calculate_bearing_back_azimuth 0 0 0 90).2.2⟩

/- ----------------- C2: rigorous enclosures for the Japan-France round -----------------

The concrete round of spec section 8 needs numeric enclosures of sin and cos
at the angles occurring in haversine and calculate_bearing.  Each leaf value
is pinned with the cubic Taylor polynomial (Real.sin_bound / Real.cos_bound,
valid for arguments up to 1) after bracketing the angle with the decimal
bounds on pi; larger angles are reached through the double-angle identities.
-/

lemma sin_lb_taylor (r : ℝ) (h0 : 0 ≤ r) (h1 : r ≤ 1) :
    r - r ^ 3 / 6 - r ^ 4 * (5 / 96) ≤ sin r := by
  have hb := Real.sin_bound (x := r) (by rw [abs_of_nonneg h0]; exact h1)
  rw [abs_of_nonneg h0] at hb
  have := (abs_le.mp hb).1
  linarith

lemma sin_ub_taylor (r : ℝ) (h0 : 0 ≤ r) (h1 : r ≤ 1) :
    sin r ≤ r - r ^ 3 / 6 + r ^ 4 * (5 / 96) := by
  have hb := Real.sin_bound (x := r) (by rw [abs_of_nonneg h0]; exact h1)
  rw [abs_of_nonneg h0] at hb
  have := (abs_le.mp hb).2
  linarith

lemma cos_lb_taylor (r : ℝ) (h0 : 0 ≤ r) (h1 : r ≤ 1) :
    1 - r ^ 2 / 2 - r ^ 4 * (5 / 96) ≤ cos r := by
  have hb := Real.cos_bound (x := r) (by rw [abs_of_nonneg h0]; exact h1)
  rw [abs_of_nonneg h0] at hb
  have := (abs_le.mp hb).1
  linarith

lemma cos_ub_taylor (r : ℝ) (h0 : 0 ≤ r) (h1 : r ≤ 1) :
    cos r ≤ 1 - r ^ 2 / 2 + r ^ 4 * (5 / 96) := by
  have hb := Real.cos_bound (x := r) (by rw [abs_of_nonneg h0]; exact h1)
  rw [abs_of_nonneg h0] at hb
  have := (abs_le.mp hb).2
  linarith

lemma sin_mono_enc {x lo hi : ℝ} (h1 : lo ≤ x) (h2 : x ≤ hi) (h3 : 0 ≤ lo) (h4 : hi ≤ 1) :
    sin lo ≤ sin x ∧ sin x ≤ sin hi := by
  have hpi : (1:ℝ) ≤ π / 2 := by nlinarith [Real.pi_gt_d6]
  have hm : -(π/2) ≤ lo := by linarith
  have hmem1 : lo ∈ Set.Icc (-(π/2)) (π/2) := ⟨hm, by linarith⟩
  have hmem2 : x ∈ Set.Icc (-(π/2)) (π/2) := ⟨by linarith, by linarith⟩
  have hmem3 : hi ∈ Set.Icc (-(π/2)) (π/2) := ⟨by linarith, by linarith⟩
  exact ⟨Real.strictMonoOn_sin.monotoneOn hmem1 hmem2 h1,
    Real.strictMonoOn_sin.monotoneOn hmem2 hmem3 h2⟩

lemma cos_mono_enc {x lo hi : ℝ} (h1 : lo ≤ x) (h2 : x ≤ hi) (h3 : 0 ≤ lo) (h4 : hi ≤ 1) :
    cos hi ≤ cos x ∧ cos x ≤ cos lo := by
  have hpi : (1:ℝ) ≤ π := by nlinarith [Real.pi_gt_d6]
  have hmem1 : lo ∈ Set.Icc (0:ℝ) π := ⟨h3, by linarith⟩
  have hmem2 : x ∈ Set.Icc (0:ℝ) π := ⟨by linarith, by linarith⟩
  have hmem3 : hi ∈ Set.Icc (0:ℝ) π := ⟨by linarith, by linarith⟩
  exact ⟨Real.strictAntiOn_cos.antitoneOn hmem2 hmem3 h2,
    Real.strictAntiOn_cos.antitoneOn hmem1 hmem2 h1⟩

lemma mul_mem_ivl {x y a b c d : ℝ} (hx1 : a ≤ x) (hx2 : x ≤ b) (hy1 : c ≤ y) (hy2 : y ≤ d)
    (ha : 0 ≤ a) (hc : 0 ≤ c) : a * c ≤ x * y ∧ x * y ≤ b * d :=
  ⟨mul_le_mul hx1 hy1 hc (le_trans ha hx1),
    mul_le_mul hx2 hy2 (le_trans hc hy1) (le_trans (le_trans ha hx1) hx2)⟩

lemma mul_pos_neg_ivl {x y a b c d : ℝ} (hx1 : a ≤ x) (hx2 : x ≤ b) (hy1 : c ≤ y) (hy2 : y ≤ d)
    (ha : 0 ≤ a) (hd : d ≤ 0) : b * c ≤ x * y ∧ x * y ≤ a * d := by
  constructor
  · nlinarith
  · nlinarith

/-- cos of a doubled angle through the sine of the half angle. -/
lemma cos_double_sin (x : ℝ) : cos (2 * x) = 1 - 2 * sin x ^ 2 := by
  have h := Real.cos_two_mul x
  have hp := Real.sin_sq_add_cos_sq x
  nlinarith

lemma ang17_bounds : (0.296791:ℝ) ≤ radians 17.0049 ∧ radians 17.0049 ≤ 0.296792 := by
  unfold radians
  constructor <;> nlinarith [Real.pi_gt_d6, Real.pi_lt_d6]

lemma ang18_bounds : (0.315946:ℝ) ≤ radians 18.1024 ∧ radians 18.1024 ≤ 0.315947 := by
  unfold radians
  constructor <;> nlinarith [Real.pi_gt_d6, Real.pi_lt_d6]

lemma ang23_bounds : (0.403411:ℝ) ≤ radians 23.1138 ∧ radians 23.1138 ≤ 0.403412 := by
  unfold radians
  constructor <;> nlinarith [Real.pi_gt_d6, Real.pi_lt_d6]

lemma ang5_bounds : (0.087465:ℝ) ≤ radians 5.0114 ∧ radians 5.0114 ≤ 0.087466 := by
  unfold radians
  constructor <;> nlinarith [Real.pi_gt_d6, Real.pi_lt_d6]

lemma sin17_bounds : (0.292029:ℝ) ≤ sin (radians 17.0049) ∧ sin (radians 17.0049) ≤ 0.292839 := by
  obtain ⟨h1, h2⟩ := ang17_bounds
  obtain ⟨hm1, hm2⟩ := sin_mono_enc h1 h2 (by norm_num) (by norm_num)
  have hl := sin_lb_taylor 0.296791 (by norm_num) (by norm_num)
  have hu := sin_ub_taylor 0.296792 (by norm_num) (by norm_num)
  constructor
  · nlinarith
  · nlinarith

lemma cos17_bounds : (0.955553:ℝ) ≤ cos (radians 17.0049) ∧ cos (radians 17.0049) ≤ 0.956362 := by
  obtain ⟨h1, h2⟩ := ang17_bounds
  obtain ⟨hm1, hm2⟩ := cos_mono_enc h1 h2 (by norm_num) (by norm_num)
  have hl := cos_lb_taylor 0.296792 (by norm_num) (by norm_num)
  have hu := cos_ub_taylor 0.296791 (by norm_num) (by norm_num)
  constructor
  · nlinarith
  · nlinarith

lemma sin18_bounds : (0.31017:ℝ) ≤ sin (radians 18.1024) ∧ sin (radians 18.1024) ≤ 0.31121 := by
  obtain ⟨h1, h2⟩ := ang18_bounds
  obtain ⟨hm1, hm2⟩ := sin_mono_enc h1 h2 (by norm_num) (by norm_num)
  have hl := sin_lb_taylor 0.315946 (by norm_num) (by norm_num)
  have hu := sin_ub_taylor 0.315947 (by norm_num) (by norm_num)
  constructor
  · nlinarith
  · nlinarith

lemma cos18_bounds : (0.949569:ℝ) ≤ cos (radians 18.1024) ∧ cos (radians 18.1024) ≤ 0.950609 := by
  obtain ⟨h1, h2⟩ := ang18_bounds
  obtain ⟨hm1, hm2⟩ := cos_mono_enc h1 h2 (by norm_num) (by norm_num)
  have hl := cos_lb_taylor 0.315947 (by norm_num) (by norm_num)
  have hu := cos_ub_taylor 0.315946 (by norm_num) (by norm_num)
  constructor
  · nlinarith
  · nlinarith

lemma sin23_bounds : (0.391089:ℝ) ≤ sin (radians 23.1138) ∧ sin (radians 23.1138) ≤ 0.39385 := by
  obtain ⟨h1, h2⟩ := ang23_bounds
  obtain ⟨hm1, hm2⟩ := sin_mono_enc h1 h2 (by norm_num) (by norm_num)
  have hl := sin_lb_taylor 0.403411 (by norm_num) (by norm_num)
  have hu := sin_ub_taylor 0.403412 (by norm_num) (by norm_num)
  constructor
  · nlinarith
  · nlinarith

lemma cos23_bounds : (0.917249:ℝ) ≤ cos (radians 23.1138) ∧ cos (radians 23.1138) ≤ 0.92001 := by
  obtain ⟨h1, h2⟩ := ang23_bounds
  obtain ⟨hm1, hm2⟩ := cos_mono_enc h1 h2 (by norm_num) (by norm_num)
  have hl := cos_lb_taylor 0.403412 (by norm_num) (by norm_num)
  have hu := cos_ub_taylor 0.403411 (by norm_num) (by norm_num)
  constructor
  · nlinarith
  · nlinarith

lemma sin5_bounds : (0.08735:ℝ) ≤ sin (radians 5.0114) ∧ sin (radians 5.0114) ≤ 0.087358 := by
  obtain ⟨h1, h2⟩ := ang5_bounds
  obtain ⟨hm1, hm2⟩ := sin_mono_enc h1 h2 (by norm_num) (by norm_num)
  have hl := sin_lb_taylor 0.087465 (by norm_num) (by norm_num)
  have hu := sin_ub_taylor 0.087466 (by norm_num) (by norm_num)
  constructor
  · nlinarith
  · nlinarith

lemma sin34_bounds : (0.558098:ℝ) ≤ sin (radians 34.0098) ∧ sin (radians 34.0098) ≤ 0.560121 := by
  have hd : radians 34.0098 = 2 * radians 17.0049 := by unfold radians; ring
  rw [hd, Real.sin_two_mul]
  obtain ⟨hs1, hs2⟩ := sin17_bounds
  obtain ⟨hc1, hc2⟩ := cos17_bounds
  obtain ⟨hp1, hp2⟩ := mul_mem_ivl hs1 hs2 hc1 hc2 (by norm_num) (by norm_num)
  constructor
  · nlinarith
  · nlinarith

lemma cos34_bounds : (0.82849:ℝ) ≤ cos (radians 34.0098) ∧ cos (radians 34.0098) ≤ 0.829439 := by
  have hd : radians 34.0098 = 2 * radians 17.0049 := by unfold radians; ring
  rw [hd, cos_double_sin]
  obtain ⟨hs1, hs2⟩ := sin17_bounds
  constructor
  · nlinarith
  · nlinarith

lemma sin68_bounds : (0.924757:ℝ) ≤ sin (radians 68.0196) ∧ sin (radians 68.0196) ≤ 0.929173 := by
  have hd : radians 68.0196 = 2 * radians 34.0098 := by unfold radians; ring
  rw [hd, Real.sin_two_mul]
  obtain ⟨hs1, hs2⟩ := sin34_bounds
  obtain ⟨hc1, hc2⟩ := cos34_bounds
  obtain ⟨hp1, hp2⟩ := mul_mem_ivl hs1 hs2 hc1 hc2 (by norm_num) (by norm_num)
  constructor
  · nlinarith
  · nlinarith

lemma cos68_bounds : (0.372528:ℝ) ≤ cos (radians 68.0196) ∧ cos (radians 68.0196) ≤ 0.377054 := by
  have hd : radians 68.0196 = 2 * radians 34.0098 := by unfold radians; ring
  rw [hd, cos_double_sin]
  obtain ⟨hs1, hs2⟩ := sin34_bounds
  constructor
  · nlinarith
  · nlinarith

lemma sin136_bounds :
    (0.688995:ℝ) ≤ sin (radians 136.0392) ∧ sin (radians 136.0392) ≤ 0.700697 := by
  have hd : radians 136.0392 = 2 * radians 68.0196 := by unfold radians; ring
  rw [hd, Real.sin_two_mul]
  obtain ⟨hs1, hs2⟩ := sin68_bounds
  obtain ⟨hc1, hc2⟩ := cos68_bounds
  obtain ⟨hp1, hp2⟩ := mul_mem_ivl hs1 hs2 hc1 hc2 (by norm_num) (by norm_num)
  constructor
  · nlinarith
  · nlinarith

lemma cos136_bounds :
    (-0.726725:ℝ) ≤ cos (radians 136.0392) ∧ cos (radians 136.0392) ≤ -0.710351 := by
  have hd : radians 136.0392 = 2 * radians 68.0196 := by unfold radians; ring
  rw [hd, cos_double_sin]
  obtain ⟨hs1, hs2⟩ := sin68_bounds
  constructor
  · nlinarith
  · nlinarith

lemma cosphi1_bounds : (0.806296:ℝ) ≤ cos (radians 36.2048) ∧ cos (radians 36.2048) ≤ 0.80759 := by
  have hd : radians 36.2048 = 2 * radians 18.1024 := by unfold radians; ring
  rw [hd, cos_double_sin]
  obtain ⟨hs1, hs2⟩ := sin18_bounds
  constructor
  · nlinarith
  · nlinarith

lemma sinphi1_bounds : (0.589055:ℝ) ≤ sin (radians 36.2048) ∧ sin (radians 36.2048) ≤ 0.591679 := by
  have hd : radians 36.2048 = 2 * radians 18.1024 := by unfold radians; ring
  rw [hd, Real.sin_two_mul]
  obtain ⟨hs1, hs2⟩ := sin18_bounds
  obtain ⟨hc1, hc2⟩ := cos18_bounds
  obtain ⟨hp1, hp2⟩ := mul_mem_ivl hs1 hs2 hc1 hc2 (by norm_num) (by norm_num)
  constructor
  · nlinarith
  · nlinarith

lemma cosphi2_bounds : (0.689764:ℝ) ≤ cos (radians 46.2276) ∧ cos (radians 46.2276) ≤ 0.694099 := by
  have hd : radians 46.2276 = 2 * radians 23.1138 := by unfold radians; ring
  rw [hd, cos_double_sin]
  obtain ⟨hs1, hs2⟩ := sin23_bounds
  constructor
  · nlinarith
  · nlinarith

lemma sinphi2_bounds : (0.717451:ℝ) ≤ sin (radians 46.2276) ∧ sin (radians 46.2276) ≤ 0.724692 := by
  have hd : radians 46.2276 = 2 * radians 23.1138 := by unfold radians; ring
  rw [hd, Real.sin_two_mul]
  obtain ⟨hs1, hs2⟩ := sin23_bounds
  obtain ⟨hc1, hc2⟩ := cos23_bounds
  obtain ⟨hp1, hp2⟩ := mul_mem_ivl hs1 hs2 hc1 hc2 (by norm_num) (by norm_num)
  constructor
  · nlinarith
  · nlinarith

lemma hav_a_JF_bounds :
    (0.483238:ℝ) ≤ hav_a 36.2048 138.2529 46.2276 2.2137 ∧
    hav_a 36.2048 138.2529 46.2276 2.2137 ≤ 0.491588 := by
  unfold hav_a
  have e1 : radians (46.2276 - 36.2048) / 2 = radians 5.0114 := by unfold radians; ring
  have e4 : radians (2.2137 - 138.2529) / 2 = -(radians 68.0196) := by unfold radians; ring
  rw [e1, e4, Real.sin_neg, neg_sq]
  obtain ⟨hA1, hA2⟩ := sin5_bounds
  obtain ⟨hc11, hc12⟩ := cosphi1_bounds
  obtain ⟨hc21, hc22⟩ := cosphi2_bounds
  obtain ⟨hs21, hs22⟩ := sin68_bounds
  have hA : (0.00763:ℝ) ≤ sin (radians 5.0114) ^ 2 ∧ sin (radians 5.0114) ^ 2 ≤ 0.007632 := by
    constructor
    · nlinarith
    · nlinarith
  have hS : (0.855175:ℝ) ≤ sin (radians 68.0196) ^ 2 ∧
      sin (radians 68.0196) ^ 2 ≤ 0.863363 := by
    constructor
    · nlinarith
    · nlinarith
  obtain ⟨hcc1, hcc2⟩ := mul_mem_ivl hc11 hc12 hc21 hc22 (by norm_num) (by norm_num)
  obtain ⟨hp1, hp2⟩ := mul_mem_ivl hcc1 hcc2 hS.1 hS.2 (by norm_num) (by norm_num)
  constructor
  · nlinarith [hA.1, hp1]
  · nlinarith [hA.2, hp2]

lemma sin_c1_bounds :
    (0.686225:ℝ) ≤ sin (4850 / 6371) ∧ sin (4850 / 6371) ≤ 0.691911 := by
  have hd : (4850 / 6371 : ℝ) = 2 * (2425 / 6371) := by norm_num
  rw [hd, Real.sin_two_mul]
  have hs1 := sin_lb_taylor (2425 / 6371) (by norm_num) (by norm_num)
  have hs2 := sin_ub_taylor (2425 / 6371) (by norm_num) (by norm_num)
  have hc1 := cos_lb_taylor (2425 / 6371) (by norm_num) (by norm_num)
  have hc2 := cos_ub_taylor (2425 / 6371) (by norm_num) (by norm_num)
  have hs1' : (0.370346:ℝ) ≤ sin (2425 / 6371) := by nlinarith
  have hs2' : sin (2425 / 6371) ≤ (0.372534:ℝ) := by nlinarith
  have hc1' : (0.926466:ℝ) ≤ cos (2425 / 6371) := by nlinarith
  have hc2' : cos (2425 / 6371) ≤ (0.928654:ℝ) := by nlinarith
  obtain ⟨hp1, hp2⟩ := mul_mem_ivl hs1' hs2' hc1' hc2' (by norm_num) (by norm_num)
  constructor
  · nlinarith
  · nlinarith

lemma sin_c2_bounds :
    (0.702571:ℝ) ≤ sin (5000 / 6371) ∧ sin (5000 / 6371) ≤ 0.709022 := by
  have hd : (5000 / 6371 : ℝ) = 2 * (2500 / 6371) := by norm_num
  rw [hd, Real.sin_two_mul]
  have hs1 := sin_lb_taylor (2500 / 6371) (by norm_num) (by norm_num)
  have hs2 := sin_ub_taylor (2500 / 6371) (by norm_num) (by norm_num)
  have hc1 := cos_lb_taylor (2500 / 6371) (by norm_num) (by norm_num)
  have hc2 := cos_ub_taylor (2500 / 6371) (by norm_num) (by norm_num)
  have hs1' : (0.381097:ℝ) ≤ sin (2500 / 6371) := by nlinarith
  have hs2' : sin (2500 / 6371) ≤ (0.383568:ℝ) := by nlinarith
  have hc1' : (0.921775:ℝ) ≤ cos (2500 / 6371) := by nlinarith
  have hc2' : cos (2500 / 6371) ≤ (0.924245:ℝ) := by nlinarith
  obtain ⟨hp1, hp2⟩ := mul_mem_ivl hs1' hs2' hc1' hc2' (by norm_num) (by norm_num)
  constructor
  · nlinarith
  · nlinarith

/-- For an intermediate value in [0,1) the haversine arctangent collapses to
    the arcsine of the square root. -/
lemma atan2_sqrt_eq_arcsin (a : ℝ) (h0 : 0 ≤ a) (h1 : a < 1) :
    atan2 (Real.sqrt a) (Real.sqrt (1 - a)) = arcsin (Real.sqrt a) := by
  have hpos : 0 < Real.sqrt (1 - a) := Real.sqrt_pos.mpr (by linarith)
  unfold atan2
  rw [if_pos hpos]
  have hmem : Real.sqrt a ∈ Set.Ioo (-1 : ℝ) 1 := by
    constructor
    · have := Real.sqrt_nonneg a
      linarith
    · exact (Real.sqrt_lt' one_pos).mpr (by linarith)
  rw [Real.arcsin_eq_arctan hmem, Real.sq_sqrt h0]

lemma dist_JF_bounds :
    9700 < haversine 36.2048 138.2529 46.2276 2.2137 ∧
    haversine 36.2048 138.2529 46.2276 2.2137 < 10000 := by
  obtain ⟨ha1, ha2⟩ := hav_a_JF_bounds
  set a := hav_a 36.2048 138.2529 46.2276 2.2137 with hadef
  have h0 : (0:ℝ) ≤ a := by linarith
  have h1 : a < 1 := by linarith
  have heq : haversine 36.2048 138.2529 46.2276 2.2137 = 2 * 6371 * arcsin (Real.sqrt a) := by
    unfold haversine
    rw [← hadef, atan2_sqrt_eq_arcsin a h0 h1]
  rw [heq]
  have hsqmem : Real.sqrt a ∈ Set.Icc (-1 : ℝ) 1 := by
    constructor
    · have := Real.sqrt_nonneg a
      linarith
    · exact Real.sqrt_le_one.mpr (by linarith)
  have hpid : (4850 / 6371 : ℝ) ≤ π / 2 ∧ (5000 / 6371 : ℝ) ≤ π / 2 := by
    constructor <;> nlinarith [Real.pi_gt_d6]
  constructor
  · -- lower bound: arcsin sqrt a > 4850/6371
    obtain ⟨hs1, hs2⟩ := sin_c1_bounds
    have hlt : sin (4850 / 6371) < Real.sqrt a := by
      rw [Real.lt_sqrt (by linarith)]
      nlinarith
    have hmem1 : sin (4850 / 6371) ∈ Set.Icc (-1 : ℝ) 1 :=
      ⟨Real.neg_one_le_sin _, Real.sin_le_one _⟩
    have hmono := Real.strictMonoOn_arcsin hmem1 hsqmem hlt
    have hval : arcsin (sin (4850 / 6371)) = 4850 / 6371 :=
      Real.arcsin_sin (by nlinarith [Real.pi_gt_d6]) hpid.1
    rw [hval] at hmono
    nlinarith
  · -- upper bound: arcsin sqrt a < 5000/6371
    obtain ⟨hs1, hs2⟩ := sin_c2_bounds
    have hlt : Real.sqrt a < sin (5000 / 6371) := by
      rw [Real.sqrt_lt' (by linarith)]
      nlinarith
    have hmem2 : sin (5000 / 6371) ∈ Set.Icc (-1 : ℝ) 1 :=
      ⟨Real.neg_one_le_sin _, Real.sin_le_one _⟩
    have hmono := Real.strictMonoOn_arcsin hsqmem hmem2 hlt
    have hval : arcsin (sin (5000 / 6371)) = 5000 / 6371 :=
      Real.arcsin_sin (by nlinarith [Real.pi_gt_d6]) hpid.2
    rw [hval] at hmono
    nlinarith

lemma tan_pi_div_eight : Real.tan (π / 8) = Real.sqrt 2 - 1 := by
  have hpi := Real.pi_pos
  have hcpos : 0 < cos (π / 8) := Real.cos_pos_of_mem_Ioo ⟨by linarith, by linarith⟩
  have h4 : π / 4 = 2 * (π / 8) := by ring
  have hs : Real.sqrt 2 / 2 = 2 * sin (π / 8) * cos (π / 8) := by
    rw [← Real.sin_pi_div_four, h4, Real.sin_two_mul]
  have hc : Real.sqrt 2 / 2 = 2 * cos (π / 8) ^ 2 - 1 := by
    rw [← Real.cos_pi_div_four, h4, Real.cos_two_mul]
  have hs2 : Real.sqrt 2 ^ 2 = 2 := Real.sq_sqrt (by norm_num)
  rw [Real.tan_eq_sin_div_cos, div_eq_iff (ne_of_gt hcpos)]
  have h2c : (0:ℝ) < 2 * cos (π / 8) := by linarith
  have key : sin (π / 8) * (2 * cos (π / 8)) =
      (Real.sqrt 2 - 1) * cos (π / 8) * (2 * cos (π / 8)) := by
    linear_combination -hs + (Real.sqrt 2 - 1) * hc - hs2 / 2
  exact mul_right_cancel₀ (ne_of_gt h2c) key

lemma sqrt2_bounds : (1.414213:ℝ) < Real.sqrt 2 ∧ Real.sqrt 2 < 1.414214 :=
  ⟨(Real.lt_sqrt (by norm_num)).mpr (by norm_num),
    (Real.sqrt_lt' (by norm_num)).mpr (by norm_num)⟩

lemma X_JF_bounds :
    (-0.486354:ℝ) ≤ sin (radians (2.2137 - 138.2529)) * cos (radians 46.2276) ∧
    sin (radians (2.2137 - 138.2529)) * cos (radians 46.2276) ≤ -0.475243 := by
  have e : radians (2.2137 - 138.2529) = -(radians 136.0392) := by unfold radians; ring
  rw [e, Real.sin_neg]
  obtain ⟨hs1, hs2⟩ := sin136_bounds
  obtain ⟨hc1, hc2⟩ := cosphi2_bounds
  obtain ⟨hp1, hp2⟩ := mul_mem_ivl hs1 hs2 hc1 hc2 (by norm_num) (by norm_num)
  constructor
  · nlinarith
  · nlinarith

lemma Y_JF_bounds :
    (0.867099:ℝ) ≤ cos (radians 36.2048) * sin (radians 46.2276) -
      sin (radians 36.2048) * cos (radians 46.2276) * cos (radians (2.2137 - 138.2529)) ∧
    cos (radians 36.2048) * sin (radians 46.2276) -
      sin (radians 36.2048) * cos (radians 46.2276) * cos (radians (2.2137 - 138.2529)) ≤
      0.883709 := by
  have e : radians (2.2137 - 138.2529) = -(radians 136.0392) := by unfold radians; ring
  rw [e, Real.cos_neg]
  obtain ⟨ha1, ha2⟩ := cosphi1_bounds
  obtain ⟨hb1, hb2⟩ := sinphi2_bounds
  obtain ⟨hc1, hc2⟩ := sinphi1_bounds
  obtain ⟨hd1, hd2⟩ := cosphi2_bounds
  obtain ⟨he1, he2⟩ := cos136_bounds
  obtain ⟨ht11, ht12⟩ := mul_mem_ivl ha1 ha2 hb1 hb2 (by norm_num) (by norm_num)
  obtain ⟨ht21, ht22⟩ := mul_mem_ivl hc1 hc2 hd1 hd2 (by norm_num) (by norm_num)
  obtain ⟨ht31, ht32⟩ := mul_pos_neg_ivl ht21 ht22 he1 he2 (by norm_num) (by norm_num)
  constructor
  · nlinarith
  · nlinarith

lemma bearing_deg_bucket (X Y : ℝ)
    (hx1 : -0.486354 ≤ X) (hx2 : X ≤ -0.475243)
    (hy1 : 0.867099 ≤ Y) (hy2 : Y ≤ 0.883709) :
    (-67.5:ℝ) < degrees (atan2 X Y) ∧ degrees (atan2 X Y) < -22.5 := by
  obtain ⟨hr2a, hr2b⟩ := sqrt2_bounds
  have hpi := Real.pi_pos
  have hYpos : 0 < Y := by linarith
  have hatan : atan2 X Y = arctan (X / Y) := by
    unfold atan2
    rw [if_pos hYpos]
  have ht1 : X / Y < -(Real.sqrt 2 - 1) := by
    rw [div_lt_iff₀ hYpos]
    have hm : (Real.sqrt 2 - 1) * Y ≤ 0.414214 * 0.883709 :=
      mul_le_mul (by linarith) hy2 (by linarith) (by norm_num)
    nlinarith
  have ht2 : -(Real.sqrt 2 + 1) < X / Y := by
    rw [lt_div_iff₀ hYpos]
    have hm : (2.414213:ℝ) * 0.867099 ≤ (Real.sqrt 2 + 1) * Y :=
      mul_le_mul (by linarith) hy1 (by norm_num) (by linarith)
    nlinarith
  have ha8 : arctan (-(Real.sqrt 2 - 1)) = -(π / 8) := by
    rw [show -(Real.sqrt 2 - 1) = Real.tan (-(π / 8)) by rw [Real.tan_neg, tan_pi_div_eight],
      Real.arctan_tan (by linarith) (by linarith)]
  have h38 : Real.tan (3 * π / 8) = Real.sqrt 2 + 1 := by
    rw [show 3 * π / 8 = π / 2 - π / 8 by ring, Real.tan_pi_div_two_sub, tan_pi_div_eight]
    have hs2 : Real.sqrt 2 ^ 2 = 2 := Real.sq_sqrt (by norm_num)
    have hmul : (Real.sqrt 2 - 1) * (Real.sqrt 2 + 1) = 1 := by linear_combination hs2
    exact inv_eq_of_mul_eq_one_right hmul
  have ha38 : arctan (-(Real.sqrt 2 + 1)) = -(3 * π / 8) := by
    rw [show -(Real.sqrt 2 + 1) = Real.tan (-(3 * π / 8)) by rw [Real.tan_neg, h38],
      Real.arctan_tan (by linarith) (by linarith)]
  have hth1 : arctan (X / Y) < -(π / 8) := by
    rw [← ha8]
    exact Real.arctan_strictMono ht1
  have hth2 : -(3 * π / 8) < arctan (X / Y) := by
    rw [← ha38]
    exact Real.arctan_strictMono ht2
  unfold degrees
  rw [hatan]
  have h180 : (0:ℝ) < 180 / π := by positivity
  constructor
  · have hmul := mul_lt_mul_of_pos_right hth2 h180
    have hkey : -(3 * π / 8) * (180 / π) = -67.5 := by
      field_simp
      ring
    calc (-67.5:ℝ) = -(3 * π / 8) * (180 / π) := hkey.symm
      _ < arctan (X / Y) * (180 / π) := hmul
      _ = arctan (X / Y) * 180 / π := by ring
  · have hmul := mul_lt_mul_of_pos_right hth1 h180
    have hkey : -(π / 8) * (180 / π) = -22.5 := by
      field_simp
      ring
    calc arctan (X / Y) * 180 / π = arctan (X / Y) * (180 / π) := by ring
      _ < -(π / 8) * (180 / π) := hmul
      _ = -22.5 := hkey

lemma rawBearing_JF :
    (-67.5:ℝ) < rawBearing 36.2048 138.2529 46.2276 2.2137 ∧
    rawBearing 36.2048 138.2529 46.2276 2.2137 < -22.5 := by
  unfold rawBearing
  exact bearing_deg_bucket _ _ X_JF_bounds.1 X_JF_bounds.2 Y_JF_bounds.1 Y_JF_bounds.2

lemma direction_JF :
    bearing_to_cardinal (calculate_bearing 36.2048 138.2529 46.2276 2.2137) = "↘️" := by
  obtain ⟨hb1, hb2⟩ := rawBearing_JF
  unfold calculate_bearing
  rw [if_neg (by norm_num)]
  rw [rmod_eq_self _ 360 (by linarith) (by linarith)]
  show dirs.getD (glyphIndex (rawBearing 36.2048 138.2529 46.2276 2.2137 + 180)).toNat "" = "↘️"
  unfold glyphIndex
  have hfloor : ⌊(rawBearing 36.2048 138.2529 46.2276 2.2137 + 180 + 22.5) / 45⌋ = 3 := by
    rw [Int.floor_eq_iff]
    constructor
    · push_cast
      rw [le_div_iff (by norm_num : (0:ℝ) < 45)]
      linarith
    · push_cast
      rw [div_lt_iff (by norm_num : (0:ℝ) < 45)]
      linarith
  rw [hfloor]
  have h3 : ((3:ℤ) % 8).toNat = 3 := by decide
  rw [h3]
  rfl

/-- C2 amended: in the concrete round with target (Japan, Sushi, 36.2048,
    138.2529) and guess France (46.2276, 2.2137), the recorded attempt has
    distance about 9850 km (strictly between 9700 and 10000), display color
    red, and direction glyph southeast (the +180-shifted bearing lands in the
    SE bucket), not west/northwest. -/
theorem japan_france_round :
    ∃ s2, submitGuess gameDf (freshRound japanRow) "France" = .accepted s2 ∧
      ∃ att, s2.attempts = [att] ∧
        att.guess = "France" ∧ att.correct = false ∧
        9700 < att.distance ∧ att.distance < 10000 ∧
        att.color = "red" ∧ att.direction = "↘️" := by
  refine ⟨_,
    submitGuess_accepted gameDf (freshRound japanRow) "France" franceRow rfl lookup_france,
    attemptFor (freshRound japanRow) "France" franceRow, rfl, rfl, by decide, ?_, ?_, ?_, ?_⟩
  · show 9700 < haversine 36.2048 138.2529 46.2276 2.2137
    exact dist_JF_bounds.1
  · show haversine 36.2048 138.2529 46.2276 2.2137 < 10000
    exact dist_JF_bounds.2
  · show colorRule ("France" == "Japan") (haversine 36.2048 138.2529 46.2276 2.2137) = "red"
    unfold colorRule
    rw [show (("France" == "Japan") : Bool) = false by decide]
    rw [if_neg (by simp)]
    rw [if_neg (not_lt.mpr (by linarith [dist_JF_bounds.1]))]
  · show bearing_to_cardinal (calculate_bearing 36.2048 138.2529 46.2276 2.2137) = "↘️"
    exact direction_JF

/-- C2 counterexample: in the concrete round of spec section 8 the code shows
    the southeast glyph, which is neither the west glyph nor the northwest
    glyph, contradicting the claimed west/northwest direction hint. -/
theorem japan_france_glyph_not_westnorthwest :
    ∃ s2, submitGuess gameDf (freshRound japanRow) "France" = .accepted s2 ∧
      ∃ att, s2.attempts = [att] ∧ att.direction = "↘️" ∧
        ¬(att.direction = "⬅️" ∨ att.direction = "↖️") := by
  have hd : (attemptFor (freshRound japanRow) "France" franceRow).direction = "↘️" := by
    show bearing_to_cardinal (calculate_bearing 36.2048 138.2529 46.2276 2.2137) = "↘️"
    exact direction_JF
  refine ⟨_,
    submitGuess_accepted gameDf (freshRound japanRow) "France" franceRow rfl lookup_france,
    attemptFor (freshRound japanRow) "France" franceRow, rfl, hd, ?_⟩
  intro h
  rcases h with h | h <;> rw [hd] at h <;> exact absurd h (by decide)
